import Mathlib

/-!
Verification of the real-time market-data synchronization layer of the
crypto-data-dashboard client.

The development shallowly embeds the TypeScript source:
* `apiCache.ts` (`createCache`): an explicit store function plus an explicit
  wall-clock parameter `now` replacing `Date.now()`; the JS `Infinity`
  default TTL is modelled as `Option Int` with `none` = never expires.
* `cryptoApiService.ts` (`apiFetch`, `fetchCandles`, `fetchOrderBook`):
  the network is an oracle mapping a URL to a transport result; JSON
  decoding is an abstract decoder parameter.
* `useCryptoWebSocket.ts`: an explicit state machine (`WsState`) whose
  events are the socket callbacks (`onopen`, `onmessage`) and the React
  pair-change effect; outbound frames are accumulated in a wire log.
* `useOrderbookController.ts` / `useCryptoCandleChartController.ts`: the
  per-effect-run `cancelled` closure flag is modelled by a run token;
  a run is cancelled exactly when a newer run has started.
-/

namespace CryptoDashboard

/-- `CryptoPair` from apiTypes.ts; the union of pair literals is embedded as
strings. -/
abbrev CryptoPair := String

/-- `Candle` from apiTypes.ts: one OHLCV candlestick point. -/
structure Candle where
  time : Int
  open_ : ℚ
  high : ℚ
  low : ℚ
  close : ℚ
  volume : ℚ
  deriving DecidableEq, Repr

/-- `OrderBookEntry` from apiTypes.ts: a `[price, amount]` tuple. -/
abbrev OrderBookEntry := ℚ × ℚ

/-- `OrderBook` from apiTypes.ts. -/
structure OrderBook where
  pair : CryptoPair
  asks : List OrderBookEntry
  bids : List OrderBookEntry
  timestamp : Int
  deriving DecidableEq, Repr

/-! ### TTL cache (`apiCache.ts`, `createCache`) -/

/-- `CacheEntry` from apiCache.ts. -/
structure CacheEntry (T : Type) where
  data : T
  storedAt : Int
  deriving DecidableEq, Repr

/-- The backing `Map` of a cache instance, as a key-indexed partial map. -/
def CacheStore (T : Type) := String → Option (CacheEntry T)

/-- The empty backing store (`new Map()`). -/
def CacheStore.empty {T : Type} : CacheStore T := fun _ => none

/-- The expiry test inside `get`: `Date.now() - entry.storedAt > ttlMs`.
`ttlMs = none` models the default `Infinity`, for which the comparison is
always false. -/
def isExpired (ttlMs : Option Int) (now storedAt : Int) : Bool :=
  match ttlMs with
  | none => false
  | some t => decide (now - storedAt > t)

/-- `get` of `createCache`: returns the fresh value, or evicts an expired
entry (lazily mutating the store) and returns `none`. The returned pair is
(result, store after the call). -/
def cacheGet {T : Type} (ttlMs : Option Int) (now : Int) (store : CacheStore T)
    (key : String) : Option T × CacheStore T :=
  match store key with
  | none => (none, store)
  | some entry =>
      if isExpired ttlMs now entry.storedAt then
        (none, fun k => if k = key then none else store k)
      else
        (some entry.data, store)

/-- `set` of `createCache`: stores the value with the current time. -/
def cacheSet {T : Type} (now : Int) (store : CacheStore T) (key : String)
    (data : T) : CacheStore T :=
  fun k => if k = key then some ⟨data, now⟩ else store k

/-- `has` of `createCache`: defined as `get(key) !== undefined`. -/
def cacheHas {T : Type} (ttlMs : Option Int) (now : Int) (store : CacheStore T)
    (key : String) : Bool :=
  (cacheGet ttlMs now store key).1.isSome

/-- `delete` of `createCache`. -/
def cacheDelete {T : Type} (store : CacheStore T) (key : String) : CacheStore T :=
  fun k => if k = key then none else store k

/-- `clear` of `createCache`. -/
def cacheClear {T : Type} (_store : CacheStore T) : CacheStore T :=
  CacheStore.empty

/-! ### Order-book utilities (`domain/orderbook/utils.ts`) -/

/-- `getMidPrice` from utils.ts: `(asks[0]?.[0] ?? 0 + bids[0]?.[0] ?? 0) / 2`
with the optional-chaining fallback of each missing side to `0`. -/
def getMidPrice (data : OrderBook) : ℚ :=
  let bestAsk := (data.asks.head?.map Prod.fst).getD 0
  let bestBid := (data.bids.head?.map Prod.fst).getD 0
  (bestAsk + bestBid) / 2

/-! ### Snapshot fetch client (`cryptoApiService.ts`) -/

/-- `BASE_URL` of cryptoApiService.ts (the environment fallback value). -/
def BASE_URL : String := "http://localhost:3001"

/-- A thrown JavaScript error as the source actually produces it: the error
class name and the message text. Both explicit `throw` sites of `apiFetch`
construct plain `Error`s (class name "Error"); the data they carry lives
only in the interpolated message string. The rejection of `response.json()`
on a malformed body is the engine's `SyntaxError`. -/
structure JsError where
  errorName : String
  message : String
  deriving DecidableEq, Repr

/-- The message of the network-error branch of `apiFetch`:
`Network error while reaching (url). Is the backend running? ((error))`. -/
def networkErrorMessage (url detail : String) : String :=
  "Network error while reaching " ++ url ++ ". Is the backend running? ("
    ++ detail ++ ")"

/-- The message of the non-2xx branch of `apiFetch`:
`HTTP (status) (statusText) — (url)` with `: (body)` appended when the body
text is nonempty (JS string truthiness). -/
def httpErrorMessage (url : String) (status : Nat) (statusText body : String) :
    String :=
  "HTTP " ++ toString status ++ " " ++ statusText ++ " — " ++ url
    ++ (if body = "" then "" else ": " ++ body)

/-- The error class of a failed call, when it failed. -/
def thrownName {T : Type} : Except JsError T → Option String
  | .error e => some e.errorName
  | .ok _ => none

/-- The `Response` fields `apiFetch` reads: `ok`, `status`, `statusText`,
and the raw body text consumed by `response.text()` / `response.json()`. -/
structure HttpResponse where
  ok : Bool
  status : Nat
  statusText : String
  bodyText : String
  deriving DecidableEq, Repr

/-- Outcome of the `fetch(url, ...)` call itself: either the call threw
(host unreachable and the like) or a response arrived. -/
inductive TransportResult where
  | failed (detail : String)
  | succeeded (resp : HttpResponse)
  deriving DecidableEq, Repr

/-- `apiFetch` from cryptoApiService.ts. `decode` abstracts
`response.json()` parsing the body text into a `T`, and `jsonErrMsg` the
engine-produced message of the `SyntaxError` its rejection carries on a
malformed body; `tr` is the outcome of the underlying network call for the
given URL. Both explicit throw sites produce a plain `Error`. -/
def apiFetch {T : Type} (decode : String → Option T)
    (jsonErrMsg : String → String) (url : String) (tr : TransportResult) :
    Except JsError T :=
  match tr with
  | .failed detail => .error ⟨"Error", networkErrorMessage url detail⟩
  | .succeeded resp =>
      if resp.ok then
        match decode resp.bodyText with
        | some v => .ok v
        | none => .error ⟨"SyntaxError", jsonErrMsg resp.bodyText⟩
      else
        .error ⟨"Error",
          httpErrorMessage url resp.status resp.statusText resp.bodyText⟩

/-- What one invocation of `fetchCandles` produces: its result, the candle
cache after the call, and how many network requests the invocation issued. -/
structure FetchCandlesOutcome where
  result : Except JsError (List Candle)
  cache : CacheStore (List Candle)
  requests : Nat

/-- The TTL of `candleCache` in cryptoApiService.ts: `createCache<Candle[]>()`
with the default `Infinity` TTL (`none`). -/
def candleCacheTtl : Option Int := none

/-- `fetchCandles` from cryptoApiService.ts: consult the candle cache under
`"candles:" + pair`; on a hit return the cached array with no network
request; on a miss issue one request through `apiFetch` and, on success,
store the parsed result before returning it. `network` is the transport
oracle and `decode` the JSON decoder for candle arrays. -/
def fetchCandles (decode : String → Option (List Candle))
    (jsonErrMsg : String → String) (network : String → TransportResult)
    (now : Int) (cache : CacheStore (List Candle)) (pair : CryptoPair) :
    FetchCandlesOutcome :=
  let cacheKey := "candles:" ++ pair
  let lookup := cacheGet candleCacheTtl now cache cacheKey
  match lookup.1 with
  | some cached => ⟨.ok cached, lookup.2, 0⟩
  | none =>
      let url := BASE_URL ++ "/api/candles/" ++ pair
      match apiFetch decode jsonErrMsg url (network url) with
      | .ok candles => ⟨.ok candles, cacheSet now lookup.2 cacheKey candles, 1⟩
      | .error e => ⟨.error e, lookup.2, 1⟩

/-- `fetchOrderBook` from cryptoApiService.ts: always one uncached request. -/
def fetchOrderBook (decode : String → Option OrderBook)
    (jsonErrMsg : String → String) (network : String → TransportResult)
    (pair : CryptoPair) : Except JsError OrderBook :=
  apiFetch decode jsonErrMsg (BASE_URL ++ "/api/orderbook/" ++ pair)
    (network (BASE_URL ++ "/api/orderbook/" ++ pair))

/-! ### Subscription-managed stream client (`useCryptoWebSocket.ts`) -/

/-- The `WebSocket.readyState` values the hook inspects. -/
inductive ReadyState where
  | connecting
  | opened
  | closed
  deriving DecidableEq, Repr

/-- `SubscribePayload` from useCryptoWebSocket.ts: the client→server wire
frames (`stream: "all"` is constant and omitted). -/
inductive WireMessage where
  | subscribe (pair : CryptoPair)
  | unsubscribe (pair : CryptoPair)
  deriving DecidableEq, Repr

/-- The fields of a parsed JSON value that the onmessage handler may read;
`none` models an absent field (reading it yields `undefined`). A frame that
parses to a primitive or an array behaves, for these property reads, like an
object with every field absent. -/
structure JsObject where
  type_ : Option String
  pair : Option String
  candle : Option Candle
  data : Option OrderBook
  message : Option String
  deriving DecidableEq, Repr

/-- A JavaScript value produced by a successful `JSON.parse`, at the depth
the handler inspects: JSON `null` (reading a property of it throws a
`TypeError`), or any other value with the property reads of `JsObject`. -/
inductive JsValue where
  | jsNull
  | obj (o : JsObject)
  deriving DecidableEq, Repr

/-- A raw socket frame: either `JSON.parse` throws on it, or it yields a
`JsValue`. -/
inductive Frame where
  | malformed (raw : String)
  | parsed (v : JsValue)
  deriving DecidableEq, Repr

/-- The strict inequality `msg.pair !== currentPairRef.current` of the
source: `msg.pair` is a string or `undefined` (`none`), the ref holds a
string or `null` (`none`); under `!==`, `undefined` and `null` differ from
everything including each other, so only two equal strings compare equal. -/
def pairMismatch (msgPair : Option String) (current : Option CryptoPair) :
    Bool :=
  match msgPair, current with
  | some a, some b => decide (a ≠ b)
  | _, _ => true

/-- The state owned by `useCryptoWebSocket`: the socket's ready state, the
`currentPairRef` ref, the two exposed React states, and a log of every frame
sent on the socket (in send order). -/
structure WsState where
  readyState : ReadyState
  currentPair : Option CryptoPair
  updatedCandle : Option Candle
  orderBook : Option OrderBook
  sent : List WireMessage
  deriving DecidableEq, Repr

/-- The mount effect of `useCryptoWebSocket`: a socket is created
(`CONNECTING`), `currentPairRef.current = "BTC-USDT"`, both exposed states
start as `null`, nothing sent yet. -/
def wsMount : WsState :=
  { readyState := .connecting
    currentPair := some "BTC-USDT"
    updatedCandle := none
    orderBook := none
    sent := [] }

/-- `socket.onopen`: the connection becomes open and the hook sends the
default subscription frame `{type: "subscribe", pair: "BTC-USDT"}`. -/
def wsOnOpen (s : WsState) : WsState :=
  { s with
      readyState := .opened
      sent := s.sent ++ [.subscribe "BTC-USDT"] }

/-- Result of one run of the onmessage handler: the state after the run, or
the uncaught `TypeError` thrown when reading `msg.type` on `null` (the
handler's try/catch wraps only `JSON.parse`). -/
inductive HandlerResult where
  | ok (s : WsState)
  | typeError
  deriving DecidableEq, Repr

/-- `socket.onmessage`: the `try` returns on frames `JSON.parse` throws on;
a parsed `null` throws a `TypeError` at the very next line (`msg.type`);
an `"error"` type frame is logged and dropped; a frame whose `pair` differs
(under `!==`) from `currentPairRef.current` is dropped; then the `switch`
applies `candle_update` / `orderbook_update` frames to the corresponding
state and falls through silently on any other type. -/
def wsOnMessage (s : WsState) (f : Frame) : HandlerResult :=
  match f with
  | .malformed _ => .ok s
  | .parsed .jsNull => .typeError
  | .parsed (.obj o) =>
      if o.type_ = some "error" then .ok s
      else if pairMismatch o.pair s.currentPair then .ok s
      else if o.type_ = some "candle_update" then
        .ok { s with updatedCandle := o.candle }
      else if o.type_ = some "orderbook_update" then
        .ok { s with orderBook := o.data }
      else .ok s

/-- The effect of delivering one frame on the owning session: a handler run
that throws leaves the React state unchanged (the exception propagates to
the event loop). -/
def wsDeliver (s : WsState) (f : Frame) : WsState :=
  match wsOnMessage s f with
  | .ok s2 => s2
  | .typeError => s

/-- The `[pair]` effect of `useCryptoWebSocket`: a no-op unless the socket
is `OPEN`; otherwise it unsubscribes the previous pair when it differs,
subscribes the new pair, and records it in `currentPairRef`. -/
def wsPairEffect (s : WsState) (pair : CryptoPair) : WsState :=
  if s.readyState ≠ .opened then s
  else
    let afterUnsub : WsState :=
      match s.currentPair with
      | some prev =>
          if prev ≠ pair then { s with sent := s.sent ++ [.unsubscribe prev] }
          else s
      | none => s
    { afterUnsub with
        sent := afterUnsub.sent ++ [.subscribe pair]
        currentPair := some pair }

/-! ### Reconciliation controllers -/

/-- The state of `useOrderbookController`: the fetched order book, the
loading and error flags, and a token identifying the current run of the
`[pair]` fetch effect. Each effect run closes over its own `cancelled`
flag; a run's flag is `true` exactly when its token is no longer the
active one (the cleanup of run `n` fires when run `n+1` starts or on
unmount). -/
structure OrderbookCtrlState where
  orderBook : Option OrderBook
  loading : Bool
  error : Option String
  activeToken : Nat
  deriving DecidableEq, Repr

/-- Initial state of `useOrderbookController` (`useState(null)`, not
loading, no error). -/
def obCtrlInit : OrderbookCtrlState :=
  { orderBook := none, loading := false, error := none, activeToken := 0 }

/-- A run of the fetch effect in `useOrderbookController` starting (on
mount or on a pair change): the previous run's cleanup sets its
`cancelled` flag (the token advances), then `setLoading(true)` and
`setError(null)` before the await. -/
def obStartFetch (st : OrderbookCtrlState) : OrderbookCtrlState :=
  { st with
      activeToken := st.activeToken + 1
      loading := true
      error := none }

/-- The continuation of `fetchData` after `fetchOrderBook` settles, for the
run identified by `token`: the `if (!cancelled)` guard drops the completion
whenever the run is no longer the active one; otherwise success stores the
data and failure stores the fixed error message, each ending loading. -/
def obResolveFetch (st : OrderbookCtrlState) (token : Nat)
    (result : Except JsError OrderBook) : OrderbookCtrlState :=
  if token ≠ st.activeToken then st
  else
    match result with
    | .ok data => { st with orderBook := some data, loading := false }
    | .error _ =>
        { st with error := some "Failed to fetch order book", loading := false }

/-- `displayedOrderBook` of `useOrderbookController`:
`updatedOrderBook ?? orderBook`, where `updatedOrderBook` is the stream
hook's `orderBook` state passed down by the Dashboard. -/
def displayedOrderBook (updatedOrderBook fetched : Option OrderBook) :
    Option OrderBook :=
  match updatedOrderBook with
  | some b => some b
  | none => fetched

/-- The state of `useCryptoCandleChartController`: the candle series held by
the chart (driven through `setCandles`), the loading and error states, and
the active-run token for the load effect's `cancelled` flag, encoded as in
`OrderbookCtrlState`. -/
structure CandleCtrlState where
  chart : List Candle
  isLoading : Bool
  errorMessage : Option String
  activeToken : Nat
  deriving DecidableEq, Repr

/-- A run of the load effect in `useCryptoCandleChartController` starting:
the previous run is cancelled and `setIsLoading(true)` runs before the
await. -/
def ccStartLoad (st : CandleCtrlState) : CandleCtrlState :=
  { st with
      activeToken := st.activeToken + 1
      isLoading := true }

/-- The continuation of `load` after `fetchCandles` settles, for the run
identified by `token`: the `if (cancelled) return` guard drops the
completion when the run is stale; otherwise success replaces the chart
series (`setCandles`), failure sets the fixed error message, each ending
loading. -/
def ccResolveLoad (st : CandleCtrlState) (token : Nat)
    (result : Except JsError (List Candle)) : CandleCtrlState :=
  if token ≠ st.activeToken then st
  else
    match result with
    | .ok candles => { st with chart := candles, isLoading := false }
    | .error _ =>
        { st with errorMessage := some "Failed to fetch candles", isLoading := false }

/-- Modelled from the spec: the Rendering Engine's patch contract
(`series.update` of the external charting widget, reached through
`useCandleChart.updateCandle`), which is not part of this repository.
Per the spec, the live point's time key is matched against the last
element: an equal key replaces that element in place, a new key appends the
point as a new final element. -/
def patchOne (series : List Candle) (point : Candle) : List Candle :=
  match series.getLast? with
  | none => [point]
  | some lastC =>
      if point.time = lastC.time then series.dropLast ++ [point]
      else series ++ [point]

/-- The `[updatedCandle]` effect of `useCryptoCandleChartController`: when a
live candle is present it is pushed to the chart through `updateCandle`. -/
def ccUpdatedCandleEffect (st : CandleCtrlState) (updatedCandle : Option Candle) :
    CandleCtrlState :=
  match updatedCandle with
  | none => st
  | some c => { st with chart := patchOne st.chart c }

/-! ### Theorems -/

/-- Claim C7: `get(key)` returns the stored value when `now - storedAt ≤ ttl`;
when `now - storedAt > ttl` it removes the entry from the store (so a later
`get` also misses) and returns absent; with the default construction (no TTL
argument, `Infinity`) an entry is returned unchanged at every later time; and
`has(key)` returns true exactly when `get(key)` succeeds. -/
theorem cacheGet_ttl_spec {T : Type} (store : CacheStore T) (key : String)
    (e : CacheEntry T) (t now later : Int) (he : store key = some e) :
    (now - e.storedAt ≤ t → cacheGet (some t) now store key = (some e.data, store))
    ∧ (now - e.storedAt > t →
        (cacheGet (some t) now store key).1 = none
        ∧ (cacheGet (some t) now store key).2 key = none
        ∧ (cacheGet (some t) later (cacheGet (some t) now store key).2 key).1 = none)
    ∧ cacheGet none later store key = (some e.data, store)
    ∧ (cacheHas (some t) now store key = true ↔
        (cacheGet (some t) now store key).1.isSome = true) := by
  refine ⟨?_, ?_, ?_, Iff.rfl⟩
  · intro hfresh
    simp [cacheGet, he, isExpired, show ¬(now - e.storedAt > t) by omega]
  · intro hexp
    have hcond : isExpired (some t) now e.storedAt = true := by
      simp [isExpired]; omega
    refine ⟨?_, ?_, ?_⟩
    · simp [cacheGet, he, hcond]
    · simp [cacheGet, he, hcond]
    · simp [cacheGet, he, hcond]
  · simp [cacheGet, he, isExpired]

/-- Claim C7 witness. -/
theorem cacheGet_ttl_spec_witness :
    let store : CacheStore Nat := cacheSet 100 CacheStore.empty "k" 7
    ((110 : Int) - 100 ≤ 20 → cacheGet (some 20) 110 store "k" = (some 7, store))
    ∧ ((130 : Int) - 100 > 20 →
        (cacheGet (some 20) 130 store "k").1 = none
        ∧ (cacheGet (some 20) 130 store "k").2 "k" = none
        ∧ (cacheGet (some 20) 500 (cacheGet (some 20) 130 store "k").2 "k").1 = none)
    ∧ cacheGet none 500 store "k" = (some 7, store)
    ∧ (cacheHas (some 20) 110 store "k" = true ↔
        (cacheGet (some 20) 110 store "k").1.isSome = true) := by
  have h1 := cacheGet_ttl_spec (cacheSet 100 CacheStore.empty "k" 7) "k"
    ⟨7, 100⟩ 20 110 500 (by simp [cacheSet])
  have h2 := cacheGet_ttl_spec (cacheSet 100 CacheStore.empty "k" 7) "k"
    ⟨7, 100⟩ 20 130 500 (by simp [cacheSet])
  exact ⟨h1.1, h2.2.1, h1.2.2.1, h1.2.2.2⟩

/-- Claim C10: `getMidPrice` returns `(bestAsk + bestBid) / 2` with a missing
best ask or best bid treated as price 0; with exactly one empty side it
returns half of the remaining best price, and with both sides empty it
returns 0. -/
theorem getMidPrice_spec (data : OrderBook) (a b aAmt bAmt : ℚ)
    (asksRest bidsRest : List OrderBookEntry) :
    (data.asks = (a, aAmt) :: asksRest → data.bids = (b, bAmt) :: bidsRest →
        getMidPrice data = (a + b) / 2)
    ∧ (data.asks = [] → data.bids = (b, bAmt) :: bidsRest →
        getMidPrice data = b / 2)
    ∧ (data.asks = (a, aAmt) :: asksRest → data.bids = [] →
        getMidPrice data = a / 2)
    ∧ (data.asks = [] → data.bids = [] → getMidPrice data = 0) := by
  refine ⟨?_, ?_, ?_, ?_⟩ <;> intro hA hB <;> simp [getMidPrice, hA, hB]

/-- Claim C10 witness: an order book whose ask side is empty yields half of
the best bid, not the best bid itself. -/
theorem getMidPrice_spec_witness :
    ({ pair := "BTC-USDT", asks := [], bids := [(30, 1)], timestamp := 0 }
        : OrderBook).asks = []
    ∧ getMidPrice
        { pair := "BTC-USDT", asks := [], bids := [(30, 1)], timestamp := 0 }
        = 30 / 2 := by
  refine ⟨rfl, ?_⟩
  exact (getMidPrice_spec
    { pair := "BTC-USDT", asks := [], bids := [(30, 1)], timestamp := 0 }
    0 30 0 1 [] []).2.1 rfl rfl

/-- Claim C8 counterexample: the transport-failure branch and the non-2xx
branch of `apiFetch` throw the very same error class — a plain `Error` —
so the program has no three mutually distinct error kinds; only the
malformed-JSON rejection of `response.json()` is a distinct class
(`SyntaxError`). -/
theorem apiFetch_same_error_class_cex :
    thrownName (apiFetch (fun _ => (none : Option Nat))
        (fun _ => "Unexpected token") "u" (.failed "down")) = some "Error"
    ∧ thrownName (apiFetch (fun _ => (none : Option Nat))
        (fun _ => "Unexpected token") "u"
        (.succeeded ⟨false, 500, "Internal Server Error", "boom"⟩))
        = some "Error"
    ∧ thrownName (apiFetch (fun _ => (none : Option Nat))
        (fun _ => "Unexpected token") "u" (.failed "down"))
      = thrownName (apiFetch (fun _ => (none : Option Nat))
        (fun _ => "Unexpected token") "u"
        (.succeeded ⟨false, 500, "Internal Server Error", "boom"⟩))
    ∧ thrownName (apiFetch (fun _ => (none : Option Nat))
        (fun _ => "Unexpected token") "u"
        (.succeeded ⟨true, 200, "OK", "not json"⟩)) = some "SyntaxError" :=
  ⟨rfl, rfl, rfl, rfl⟩

/-- Claim C8 as amended: every REST call fails through only two distinct
error classes, not three: a plain `Error` thrown for both the
transport-failure branch (its message carrying the target URL) and the
non-2xx branch (its message carrying the status, statusText, URL and, when
nonempty, the response body), and a distinct `SyntaxError` rejection when
the response body is malformed JSON; the two `Error` throws are
distinguishable only by their message text. -/
theorem apiFetch_error_classes_spec {T : Type} (decode : String → Option T)
    (jsonErrMsg : String → String) (url detail : String)
    (resp : HttpResponse) :
    apiFetch decode jsonErrMsg url (.failed detail)
      = (.error ⟨"Error", networkErrorMessage url detail⟩ : Except JsError T)
    ∧ (resp.ok = false →
        apiFetch decode jsonErrMsg url (.succeeded resp)
          = .error ⟨"Error",
              httpErrorMessage url resp.status resp.statusText resp.bodyText⟩)
    ∧ (resp.ok = true → decode resp.bodyText = none →
        apiFetch decode jsonErrMsg url (.succeeded resp)
          = .error ⟨"SyntaxError", jsonErrMsg resp.bodyText⟩)
    ∧ ("Error" : String) ≠ "SyntaxError" := by
  refine ⟨rfl, ?_, ?_, by decide⟩
  · intro hok; simp [apiFetch, hok]
  · intro hok hdec; simp [apiFetch, hok, hdec]

/-- Claim C8 amended witness. -/
theorem apiFetch_error_classes_spec_witness :
    apiFetch (fun _ => (none : Option Nat)) (fun _ => "Unexpected token") "u"
        (.failed "down")
      = .error ⟨"Error", networkErrorMessage "u" "down"⟩
    ∧ apiFetch (fun _ => (none : Option Nat)) (fun _ => "Unexpected token")
        "u" (.succeeded ⟨false, 500, "ISE", "boom"⟩)
      = .error ⟨"Error", httpErrorMessage "u" 500 "ISE" "boom"⟩
    ∧ apiFetch (fun _ => (none : Option Nat)) (fun _ => "Unexpected token")
        "u" (.succeeded ⟨true, 200, "OK", "not json"⟩)
      = .error ⟨"SyntaxError", "Unexpected token"⟩ := by
  have h1 := apiFetch_error_classes_spec (fun _ => (none : Option Nat))
    (fun _ => "Unexpected token") "u" "down" ⟨false, 500, "ISE", "boom"⟩
  have h2 := apiFetch_error_classes_spec (fun _ => (none : Option Nat))
    (fun _ => "Unexpected token") "u" "down" ⟨true, 200, "OK", "not json"⟩
  exact ⟨h1.1, h1.2.1 rfl, h2.2.2.1 rfl rfl⟩

/-- Claim C6: a first successful `fetchCandles(pair)` on a cold cache issues
exactly one network request and stores the parsed result in the cache before
returning it; every subsequent `fetchCandles(pair)` within the (unbounded
default) TTL issues zero additional requests and returns the identical
cached array. -/
theorem fetchCandles_cache_spec (decode : String → Option (List Candle))
    (jsonErrMsg : String → String) (network : String → TransportResult)
    (now later : Int) (cache : CacheStore (List Candle)) (pair : CryptoPair)
    (candles : List Candle)
    (hmiss : cache ("candles:" ++ pair) = none)
    (hnet : apiFetch decode jsonErrMsg (BASE_URL ++ "/api/candles/" ++ pair)
        (network (BASE_URL ++ "/api/candles/" ++ pair)) = .ok candles) :
    (fetchCandles decode jsonErrMsg network now cache pair).requests = 1
    ∧ (fetchCandles decode jsonErrMsg network now cache pair).result
        = .ok candles
    ∧ (fetchCandles decode jsonErrMsg network now cache pair).cache
        ("candles:" ++ pair) = some ⟨candles, now⟩
    ∧ (fetchCandles decode jsonErrMsg network later
        (fetchCandles decode jsonErrMsg network now cache pair).cache
        pair).requests = 0
    ∧ (fetchCandles decode jsonErrMsg network later
        (fetchCandles decode jsonErrMsg network now cache pair).cache
        pair).result = .ok candles
    ∧ (fetchCandles decode jsonErrMsg network later
        (fetchCandles decode jsonErrMsg network now cache pair).cache
        pair).cache
        = (fetchCandles decode jsonErrMsg network now cache pair).cache := by
  have hfirst : fetchCandles decode jsonErrMsg network now cache pair =
      ⟨.ok candles, cacheSet now cache ("candles:" ++ pair) candles, 1⟩ := by
    simp [fetchCandles, cacheGet, hmiss, hnet]
  have hstored : (cacheSet now cache ("candles:" ++ pair) candles)
      ("candles:" ++ pair) = some ⟨candles, now⟩ := by
    simp [cacheSet]
  have hsecond : fetchCandles decode jsonErrMsg network later
      (cacheSet now cache ("candles:" ++ pair) candles) pair =
      ⟨.ok candles, cacheSet now cache ("candles:" ++ pair) candles, 0⟩ := by
    simp [fetchCandles, cacheGet, hstored, candleCacheTtl, isExpired]
  rw [hfirst]
  exact ⟨rfl, rfl, hstored, by rw [hsecond], by rw [hsecond], by rw [hsecond]⟩

/-- Claim C6 witness. -/
theorem fetchCandles_cache_spec_witness :
    let candle : Candle := ⟨100, 1, 2, 1, 2, 10⟩
    let decode : String → Option (List Candle) :=
      fun s => if s = "payload" then some [candle] else none
    let jmsg : String → String := fun _ => "Unexpected token"
    let network : String → TransportResult :=
      fun _ => .succeeded ⟨true, 200, "OK", "payload"⟩
    (fetchCandles decode jmsg network 5 CacheStore.empty "BTC-USDT").requests
        = 1
    ∧ (fetchCandles decode jmsg network 5 CacheStore.empty "BTC-USDT").result
        = .ok [candle]
    ∧ (fetchCandles decode jmsg network 9
        (fetchCandles decode jmsg network 5 CacheStore.empty "BTC-USDT").cache
        "BTC-USDT").requests = 0
    ∧ (fetchCandles decode jmsg network 9
        (fetchCandles decode jmsg network 5 CacheStore.empty "BTC-USDT").cache
        "BTC-USDT").result = .ok [candle] := by
  intro candle decode jmsg network
  have h := fetchCandles_cache_spec decode jmsg network 5 9 CacheStore.empty
    "BTC-USDT" [candle] rfl (by simp [apiFetch, decode, network])
  exact ⟨h.1, h.2.1, h.2.2.2.1, h.2.2.2.2.1⟩

/-- Claim C2 counterexample: requesting "ETH-USDT" while the connection is
still connecting does not record the identifier (the ref keeps the mount
default "BTC-USDT"), and when the connection then opens, the single
subscribe message sent carries the fixed default "BTC-USDT", not the most
recently requested "ETH-USDT". -/
theorem wsOnOpen_default_subscription_cex :
    (wsPairEffect wsMount "ETH-USDT").currentPair ≠ some "ETH-USDT"
    ∧ (wsPairEffect wsMount "ETH-USDT").currentPair = some "BTC-USDT"
    ∧ (wsOnOpen (wsPairEffect wsMount "ETH-USDT")).sent
        = [.subscribe "BTC-USDT"]
    ∧ WireMessage.subscribe "BTC-USDT" ≠ WireMessage.subscribe "ETH-USDT" := by
  refine ⟨by decide, rfl, rfl, by decide⟩

/-- Claim C2 as amended: an identifier requested while the connection is not
yet Open is ignored — it is not recorded and no message is sent (the
pair-change effect is a complete no-op); when the Connecting → Open
transition fires, exactly one subscribe message is sent and it carries the
fixed default identifier "BTC-USDT", regardless of what was requested. -/
theorem wsOnOpen_fixed_default_spec (s : WsState) (pair : CryptoPair)
    (hnotopen : s.readyState ≠ .opened) :
    wsPairEffect s pair = s
    ∧ wsOnOpen s =
        { s with readyState := .opened
                 sent := s.sent ++ [.subscribe "BTC-USDT"] } := by
  constructor
  · simp [wsPairEffect, hnotopen]
  · rfl

/-- Claim C2 amended witness. -/
theorem wsOnOpen_fixed_default_spec_witness :
    wsPairEffect wsMount "ETH-USDT" = wsMount
    ∧ wsOnOpen wsMount =
        { wsMount with readyState := .opened
                       sent := wsMount.sent ++ [.subscribe "BTC-USDT"] } :=
  wsOnOpen_fixed_default_spec wsMount "ETH-USDT" (by decide)

/-- Claim C3: switching the active identifier from A to B ≠ A while the
connection is Open sends exactly one unsubscribe(A) immediately followed by
exactly one subscribe(B) and nothing else, and records B as the current
identifier; every other component of the state is unchanged. -/
theorem wsPairEffect_switch_spec (s : WsState) (a b : CryptoPair)
    (hopen : s.readyState = .opened) (hcur : s.currentPair = some a)
    (hne : a ≠ b) :
    wsPairEffect s b =
      { s with currentPair := some b
               sent := s.sent ++ [.unsubscribe a, .subscribe b] } := by
  simp [wsPairEffect, hopen, hcur, hne]

/-- Claim C3 witness. -/
theorem wsPairEffect_switch_spec_witness :
    wsPairEffect (wsOnOpen wsMount) "ETH-USDT" =
      { wsOnOpen wsMount with
          currentPair := some "ETH-USDT"
          sent := (wsOnOpen wsMount).sent
            ++ [.unsubscribe "BTC-USDT", .subscribe "ETH-USDT"] } :=
  wsPairEffect_switch_spec (wsOnOpen wsMount) "BTC-USDT" "ETH-USDT"
    rfl rfl (by decide)

/-- Claim C4 counterexample: at the concrete frame "null", `JSON.parse`
succeeds (yielding JSON `null`) and the handler then throws a `TypeError`
reading `msg.type` — the try/catch wraps only `JSON.parse` — so the message
handler is not total-and-never-throwing as the claim asserts. -/
theorem ws_handler_throws_on_null_cex :
    wsOnMessage (wsOnOpen wsMount) (.parsed .jsNull) = .typeError
    ∧ HandlerResult.typeError ≠ .ok (wsOnOpen wsMount) :=
  ⟨rfl, fun h => nomatch h⟩

/-- Claim C4 as amended: the handler catches only `JSON.parse` failures and
throws a `TypeError` on a frame that parses to JSON `null` (the thrown run
still leaves the session state unchanged); every other frame is handled
without throwing: a frame that fails to parse, an error-notification frame,
a frame whose pair is not strictly equal to the currently active pair, and
a parsed frame of unrecognized type each leave the exposed updatedCandle
and orderBook state completely unchanged, and only a candle_update or
orderbook_update frame for the active pair mutates the corresponding
state. -/
theorem wsOnMessage_spec (s : WsState) (raw : String) (p : CryptoPair)
    (c : Candle) (d : OrderBook) (o : JsObject) :
    wsOnMessage s (.malformed raw) = .ok s
    ∧ wsOnMessage s (.parsed .jsNull) = .typeError
    ∧ wsDeliver s (.parsed .jsNull) = s
    ∧ (o.type_ = some "error" → wsOnMessage s (.parsed (.obj o)) = .ok s)
    ∧ (o.type_ ≠ some "error" → pairMismatch o.pair s.currentPair = true →
        wsOnMessage s (.parsed (.obj o)) = .ok s)
    ∧ (s.currentPair = some p →
        wsOnMessage s (.parsed (.obj
            ⟨some "candle_update", some p, some c, o.data, o.message⟩))
          = .ok { s with updatedCandle := some c }
        ∧ wsOnMessage s (.parsed (.obj
            ⟨some "orderbook_update", some p, o.candle, some d, o.message⟩))
          = .ok { s with orderBook := some d })
    ∧ (o.type_ ≠ some "error" → o.type_ ≠ some "candle_update" →
        o.type_ ≠ some "orderbook_update" →
        wsOnMessage s (.parsed (.obj o)) = .ok s) := by
  refine ⟨rfl, rfl, rfl, ?_, ?_, ?_, ?_⟩
  · intro ht
    simp [wsOnMessage, ht]
  · intro ht hm
    simp [wsOnMessage, ht, hm]
  · intro hcur
    constructor <;> simp [wsOnMessage, pairMismatch, hcur]
  · intro h1 h2 h3
    by_cases hm : pairMismatch o.pair s.currentPair <;>
      simp [wsOnMessage, h1, h2, h3, hm]

/-- Claim C4 amended witness. -/
theorem wsOnMessage_spec_witness :
    let s := wsOnOpen wsMount
    let c : Candle := ⟨100, 1, 2, 1, 2, 10⟩
    let d : OrderBook := ⟨"BTC-USDT", [], [], 0⟩
    let oErr : JsObject := ⟨some "error", none, none, none,
      some "unknown stream"⟩
    let oMis : JsObject := ⟨some "candle_update", some "ETH-USDT", some c,
      none, none⟩
    let oOther : JsObject := ⟨some "subscribe", some "BTC-USDT", none, none,
      none⟩
    wsOnMessage s (.malformed "not-json") = .ok s
    ∧ wsOnMessage s (.parsed .jsNull) = .typeError
    ∧ wsDeliver s (.parsed .jsNull) = s
    ∧ wsOnMessage s (.parsed (.obj oErr)) = .ok s
    ∧ wsOnMessage s (.parsed (.obj oMis)) = .ok s
    ∧ (wsOnMessage s (.parsed (.obj ⟨some "candle_update", some "BTC-USDT",
          some c, none, none⟩)) = .ok { s with updatedCandle := some c }
       ∧ wsOnMessage s (.parsed (.obj ⟨some "orderbook_update",
          some "BTC-USDT", none, some d, none⟩))
          = .ok { s with orderBook := some d })
    ∧ wsOnMessage s (.parsed (.obj oOther)) = .ok s := by
  intro s c d oErr oMis oOther
  have h1 := wsOnMessage_spec s "not-json" "BTC-USDT" c d oErr
  have h2 := wsOnMessage_spec s "not-json" "BTC-USDT" c d oMis
  have h3 := wsOnMessage_spec s "not-json" "BTC-USDT" c d oOther
  exact ⟨h1.1, h1.2.1, h1.2.2.1, h1.2.2.2.1 rfl,
    h2.2.2.2.2.1 (by decide) (by decide),
    h3.2.2.2.2.2.1 rfl,
    h3.2.2.2.2.2.2 (by decide) (by decide) (by decide)⟩

/-- A concrete order book received for BTC-USDT, used to exhibit stale data
surviving a pair switch. -/
def staleBtcBook : OrderBook :=
  { pair := "BTC-USDT", asks := [(100, 1)], bids := [(99, 2)], timestamp := 1 }

/-- The reachable state after: mount, connection opens, an orderbook_update
frame for BTC-USDT arrives, and the pair is switched to ETH-USDT. -/
def c1SwitchedState : WsState :=
  wsPairEffect
    (wsDeliver (wsOnOpen wsMount)
      (.parsed (.obj ⟨some "orderbook_update", some "BTC-USDT", none,
        some staleBtcBook, none⟩)))
    "ETH-USDT"

/-- Claim C1 counterexample: immediately after the reachable switch from
BTC-USDT to ETH-USDT, the recorded current pair is ETH-USDT, yet the
displayed order book is still BTC-USDT's previously received book — it was
neither cleared nor marked stale, so the value shown between the switch and
the arrival of ETH-USDT data is the old pair's data, not a loading/empty
state. -/
theorem stale_orderbook_after_switch_cex :
    c1SwitchedState.currentPair = some "ETH-USDT"
    ∧ displayedOrderBook c1SwitchedState.orderBook obCtrlInit.orderBook
        = some staleBtcBook
    ∧ staleBtcBook.pair ≠ "ETH-USDT" := by
  refine ⟨by decide, rfl, by decide⟩

/-- Claim C1 as amended: on a pair switch from P to Q ≠ P the previously
displayed value for P is NOT cleared or marked stale — the stream client's
last received order book and candle survive the switch unchanged (and so
remain the displayed value until Q's data arrives); the only protection is
that, once Q is recorded, subsequent live updates carrying P are dropped
without touching the state. -/
theorem pair_switch_keeps_stale_data_spec (s : WsState) (b p : CryptoPair)
    (d : OrderBook) (c : Candle) (hopen : s.readyState = .opened)
    (hne : p ≠ b) :
    (wsPairEffect s b).orderBook = s.orderBook
    ∧ (wsPairEffect s b).updatedCandle = s.updatedCandle
    ∧ wsOnMessage (wsPairEffect s b)
        (.parsed (.obj ⟨some "orderbook_update", some p, none, some d, none⟩))
        = .ok (wsPairEffect s b)
    ∧ wsOnMessage (wsPairEffect s b)
        (.parsed (.obj ⟨some "candle_update", some p, some c, none, none⟩))
        = .ok (wsPairEffect s b) := by
  have hcur : (wsPairEffect s b).currentPair = some b := by
    simp [wsPairEffect, hopen]
  have hob : (wsPairEffect s b).orderBook = s.orderBook := by
    simp [wsPairEffect, hopen]
    cases s.currentPair with
    | none => rfl
    | some prev =>
        by_cases hpb : prev = b <;> simp [hpb]
  have huc : (wsPairEffect s b).updatedCandle = s.updatedCandle := by
    simp [wsPairEffect, hopen]
    cases s.currentPair with
    | none => rfl
    | some prev =>
        by_cases hpb : prev = b <;> simp [hpb]
  have hmis : pairMismatch (some p) (wsPairEffect s b).currentPair = true := by
    rw [hcur]
    simp [pairMismatch, hne]
  refine ⟨hob, huc, ?_, ?_⟩
  · simp [wsOnMessage, hmis]
  · simp [wsOnMessage, hmis]

/-- Claim C1 amended witness. -/
theorem pair_switch_keeps_stale_data_spec_witness :
    let s := wsDeliver (wsOnOpen wsMount)
      (.parsed (.obj ⟨some "orderbook_update", some "BTC-USDT", none,
        some staleBtcBook, none⟩))
    let c : Candle := ⟨100, 1, 2, 1, 2, 10⟩
    (wsPairEffect s "ETH-USDT").orderBook = s.orderBook
    ∧ (wsPairEffect s "ETH-USDT").updatedCandle = s.updatedCandle
    ∧ wsOnMessage (wsPairEffect s "ETH-USDT")
        (.parsed (.obj ⟨some "orderbook_update", some "BTC-USDT", none,
          some staleBtcBook, none⟩))
        = .ok (wsPairEffect s "ETH-USDT")
    ∧ wsOnMessage (wsPairEffect s "ETH-USDT")
        (.parsed (.obj ⟨some "candle_update", some "BTC-USDT", some c, none,
          none⟩))
        = .ok (wsPairEffect s "ETH-USDT") := by
  intro s c
  exact pair_switch_keeps_stale_data_spec s "ETH-USDT" "BTC-USDT"
    staleBtcBook c rfl (by decide)

/-- Claim C5: a fetch completion belonging to a run that has been cancelled
(its pair switched away or its component unmounted, so its token is no
longer the active one) performs no state mutation whatsoever, for success
and failure alike and in both controllers; consequently, in the switch
scenario X → Y with X's fetch resolving late, the late X result is
discarded and the displayed state carries only Y's data. -/
theorem cancelled_fetch_discarded_spec (st : OrderbookCtrlState)
    (stc : CandleCtrlState) (token : Nat) (r : Except JsError OrderBook)
    (rc : Except JsError (List Candle)) (bookX bookY : OrderBook)
    (hstale : token ≠ st.activeToken) (hcstale : token ≠ stc.activeToken) :
    obResolveFetch st token r = st
    ∧ ccResolveLoad stc token rc = stc
    ∧ obResolveFetch (obStartFetch (obStartFetch st))
        (obStartFetch st).activeToken (.ok bookX)
        = obStartFetch (obStartFetch st)
    ∧ (obResolveFetch (obStartFetch (obStartFetch st))
        (obStartFetch (obStartFetch st)).activeToken (.ok bookY)).orderBook
        = some bookY := by
  refine ⟨?_, ?_, ?_, ?_⟩
  · simp [obResolveFetch, hstale]
  · simp [ccResolveLoad, hcstale]
  · simp [obResolveFetch, obStartFetch]
  · simp [obResolveFetch, obStartFetch]

/-- Claim C5 witness. -/
theorem cancelled_fetch_discarded_spec_witness :
    obResolveFetch obCtrlInit 7 (.ok staleBtcBook) = obCtrlInit
    ∧ ccResolveLoad ⟨[], false, none, 0⟩ 7 (.error ⟨"SyntaxError", "x"⟩)
        = ⟨[], false, none, 0⟩
    ∧ obResolveFetch (obStartFetch (obStartFetch obCtrlInit))
        (obStartFetch obCtrlInit).activeToken (.ok staleBtcBook)
        = obStartFetch (obStartFetch obCtrlInit)
    ∧ (obResolveFetch (obStartFetch (obStartFetch obCtrlInit))
        (obStartFetch (obStartFetch obCtrlInit)).activeToken
        (.ok ⟨"ETH-USDT", [], [], 2⟩)).orderBook
        = some ⟨"ETH-USDT", [], [], 2⟩ :=
  cancelled_fetch_discarded_spec obCtrlInit ⟨[], false, none, 0⟩ 7
    (.ok staleBtcBook) (.error ⟨"SyntaxError", "x"⟩) staleBtcBook
    ⟨"ETH-USDT", [], [], 2⟩ (by decide) (by decide)

/-- Claim C9 (the replace/append behaviour itself lives in the external
rendering widget and is modelled from the spec as `patchOne`): for a
non-empty series, a live point whose time key equals the last element's
replaces that element in place and keeps the length constant; a live point
with a greater time key is appended as a new final element and the length
grows by exactly one. -/
theorem patchOne_replace_append_spec (series : List Candle)
    (point lastC : Candle) (hlast : series.getLast? = some lastC) :
    (point.time = lastC.time →
        patchOne series point = series.dropLast ++ [point]
        ∧ (patchOne series point).length = series.length)
    ∧ (lastC.time < point.time →
        patchOne series point = series ++ [point]
        ∧ (patchOne series point).length = series.length + 1) := by
  have hne : series ≠ [] := by
    intro h
    rw [h] at hlast
    exact Option.noConfusion hlast
  have hpos : 1 ≤ series.length := by
    cases series with
    | nil => exact absurd rfl hne
    | cons x xs => simp
  constructor
  · intro heq
    have hres : patchOne series point = series.dropLast ++ [point] := by
      simp [patchOne, hlast, heq]
    refine ⟨hres, ?_⟩
    rw [hres]
    simp [List.length_dropLast]
    omega
  · intro hlt
    have hres : patchOne series point = series ++ [point] := by
      have : point.time ≠ lastC.time := by omega
      simp [patchOne, hlast, this]
    refine ⟨hres, ?_⟩
    rw [hres]
    simp

/-- Claim C9 witness: a live point at the same time 100 replaces the single
historical candle (length stays 1); a live point at time 160 appends
(length becomes 2). -/
theorem patchOne_replace_append_spec_witness :
    let hist : List Candle := [⟨100, 1, 2, 1, 2, 10⟩]
    let same : Candle := ⟨100, 1, 3, 1, 5, 11⟩
    let fresh : Candle := ⟨160, 2, 3, 2, 3, 12⟩
    (patchOne hist same = hist.dropLast ++ [same]
      ∧ (patchOne hist same).length = hist.length)
    ∧ (patchOne hist fresh = hist ++ [fresh]
      ∧ (patchOne hist fresh).length = hist.length + 1) := by
  intro hist same fresh
  have h := patchOne_replace_append_spec hist same ⟨100, 1, 2, 1, 2, 10⟩ rfl
  have h2 := patchOne_replace_append_spec hist fresh ⟨100, 1, 2, 1, 2, 10⟩ rfl
  exact ⟨h.1 rfl, h2.2 (by norm_num)⟩

end CryptoDashboard
